import Mathlib

/-!
Verification of the share-link creation and deduplication workflow of
pikpak-plus (`share-section.tsx`).

The embedding models the three core functions of the source file:

* `getUserFriendlyError` — the Error Classifier, a pure function from a
  failure descriptor to a user-facing message;
* `saveToLocalStorage` — the Local Share Store append with its dedup gate
  on `file_id`;
* `handleShare` / `handleRetry` — the Share Request Orchestrator.  The
  source is an async handler; we model one completed invocation as a pure
  step receiving the remote call's outcome as an oracle argument
  (`ShareOutcome`) and the current clock as `now`, and returning the final
  component state together with the number of remote calls issued.  The
  transient `Loading` phase while the call is in flight is not a
  post-invocation state and therefore does not appear among the states the
  step function returns.

JavaScript truthiness is modelled explicitly where the source relies on
it: `!taskData?.file_id` is true for both a missing and an empty file id
(`truthyFileId`), `x || y` on strings falls through on the empty string
(`jsOrStr`), and `error.response?.data?.error` being absent or not a
string is collapsed into `Option String`.
-/

namespace PikpakShare

/-- One record of the Local Share Store (type `LocalShare` in the source).
`timestamp` is milliseconds since epoch, kept as `Nat`. -/
structure LocalShare where
  id : String
  file_name : String
  share_url : String
  pass_code : Option String
  timestamp : Nat
  file_id : String
deriving Repr, DecidableEq

/-- Body of a successful `POST /share` response.  The source reads
`is_existing` only through JavaScript truthiness (`!shareResult.is_existing`
and `shareData?.is_existing`), under which an absent field behaves exactly
like `false`, so the optional boolean is modelled as `Bool`. -/
structure ShareResult where
  share_url : String
  pass_code : Option String
  is_existing : Bool
  share_id : Option String
deriving Repr, DecidableEq

/-- The part of an axios error response the classifier reads:
`error.response.status` and `error.response?.data?.error`.  A missing
`data`, a missing `error` field, or a non-string `error` field all make
the `typeof apiError === "string"` guard fail, so they collapse to
`none`. -/
structure AxiosResponse where
  status : Nat
  data_error : Option String
deriving Repr, DecidableEq

/-- A failure descriptor (the `error : any` caught in `handleShare`).
`response := none` is a transport failure with no response.  `message` is
a field of the raw error object that the classifier never reads; it is
kept to express that classification ignores everything but `response`. -/
structure AxiosFailure where
  response : Option AxiosResponse
  message : Option String
deriving Repr, DecidableEq

/-- `needle.isPrefixOf hay` on character lists, written out. -/
def listStartsWith : List Char → List Char → Bool
  | _, [] => true
  | [], _ :: _ => false
  | c :: cs, d :: ds => c == d && listStartsWith cs ds

/-- Substring test on character lists: does `needle` occur inside `hay`? -/
def listHasSub : List Char → List Char → Bool
  | [], needle => needle.isEmpty
  | c :: cs, needle => listStartsWith (c :: cs) needle || listHasSub cs needle

/-- `hay.includes(needle)` of JavaScript strings. -/
def strContains (hay needle : String) : Bool :=
  listHasSub hay.data needle.data

/-- `s.toLowerCase()` (ASCII case folding suffices for the literals the
source compares against), written over the character list so that it
evaluates by reduction. -/
def lowerStr (s : String) : String :=
  String.mk (s.data.map Char.toLower)

/-- The Error Classifier, translated from `getUserFriendlyError` in
`share-section.tsx`: network check, then status checks (401/403, then
>= 500), then server-message checks (timeout, not found, verbatim),
then the generic fallback. -/
def getUserFriendlyError (e : AxiosFailure) : String :=
  match e.response with
  | none => "Unable to connect. Please check your internet connection."
  | some resp =>
    if resp.status == 403 || resp.status == 401 then
      "You don't have permission to share this file."
    else if resp.status ≥ 500 then
      "Server is temporarily unavailable. Please try again later."
    else
      match resp.data_error with
      | some apiError =>
        if apiError == "" then
          "Failed to create share link. Please try again."
        else if strContains (lowerStr apiError) "timeout" then
          "Request timed out. Please try again."
        else if strContains (lowerStr apiError) "not found" then
          "File not found. It may have been deleted."
        else
          apiError
      | none => "Failed to create share link. Please try again."

/-- `x || y` of JavaScript on an optional string: falls through to the
default when the value is absent or the empty string. -/
def jsOrStr : Option String → String → String
  | some s, d => if s = "" then d else s
  | none, d => d

/-- The `newShare` record constructed inside `saveToLocalStorage`:
id from `shareResult.share_id` with the generated fallback, file name
from the task with the "Unknown File" fallback, timestamp from the
clock. -/
def mkLocalShare (shareResult : ShareResult) (fileId : String)
    (fileName : Option String) (now : Nat) : LocalShare :=
  { id := jsOrStr shareResult.share_id ("share-" ++ toString now)
    file_name := jsOrStr fileName "Unknown File"
    share_url := shareResult.share_url
    pass_code := shareResult.pass_code
    timestamp := now
    file_id := fileId }

/-- The Local Share Store append (`saveToLocalStorage` in the source):
build the new record, then prepend it unless some record in the caller's
snapshot already carries the same `file_id`. -/
def saveToLocalStorage (shares : List LocalShare) (shareResult : ShareResult)
    (fileId : String) (fileName : Option String) (now : Nat) : List LocalShare :=
  let newShare := mkLocalShare shareResult fileId fileName now
  let alreadyExists := shares.any (fun s => s.file_id == fileId)
  if alreadyExists then shares else newShare :: shares

/-- The component state of `ShareSection` that the orchestrator mutates:
`shareLoading`, `shareData`, `shareError` and the `shares` list held by
the local-storage hook. -/
structure ShareState where
  shareLoading : Bool
  shareData : Option ShareResult
  shareError : Option String
  shares : List LocalShare
deriving Repr, DecidableEq

/-- The state at mount: not loading, no data, no error, empty store. -/
def initialState : ShareState :=
  { shareLoading := false, shareData := none, shareError := none, shares := [] }

/-- Oracle for the outcome of the single `POST /share` call an
invocation issues. -/
inductive ShareOutcome where
  | success (shareResult : ShareResult)
  | failure (err : AxiosFailure)
deriving Repr, DecidableEq

/-- `!taskData?.file_id` is false exactly when a file id is present and
non-empty (JavaScript truthiness). -/
def truthyFileId : Option String → Bool
  | none => false
  | some s => s != ""

/-- One completed invocation of `handleShare`.  Returns the resulting
state together with the number of remote calls issued.  When the file id
is missing (or empty), only the error message is set and no call is made.
Otherwise the call runs: on success the result is stored, the error is
left cleared, and the store is appended through `saveToLocalStorage`
exactly when `is_existing` is falsy; on failure the classified message is
stored and data and store are untouched.  `finally` resets
`shareLoading`, so the returned state is never loading. -/
def handleShare (taskFileId : Option String) (taskFileName : Option String)
    (outcome : ShareOutcome) (now : Nat) (st : ShareState) : ShareState × Nat :=
  if truthyFileId taskFileId then
    let fileId := taskFileId.getD ""
    match outcome with
    | .success shareResult =>
        ({ shareLoading := false
           shareData := some shareResult
           shareError := none
           shares :=
             if shareResult.is_existing then st.shares
             else saveToLocalStorage st.shares shareResult fileId taskFileName now }, 1)
    | .failure err =>
        ({ shareLoading := false
           shareData := st.shareData
           shareError := some (getUserFriendlyError err)
           shares := st.shares }, 1)
  else
    ({ st with shareError := some "File ID not available. Task may not be completed yet." }, 0)

/-- `handleRetry` in the source: clear the error, then run `handleShare`
with the same surrounding props. -/
def handleRetry (taskFileId : Option String) (taskFileName : Option String)
    (outcome : ShareOutcome) (now : Nat) (st : ShareState) : ShareState × Nat :=
  handleShare taskFileId taskFileName outcome now { st with shareError := none }

/-- The spec's `ShareRequestState.status`, derived from the component
state: `loading` while a call is in flight; otherwise a present error
message means the last invocation failed (`failed`), else present share
data means `succeeded`, else `idle`. -/
inductive ShareStatus where
  | idle
  | loading
  | succeeded
  | failed
deriving Repr, DecidableEq

/-- Derived status of a component state. -/
def ShareState.status (st : ShareState) : ShareStatus :=
  if st.shareLoading then .loading
  else if st.shareError.isSome then .failed
  else if st.shareData.isSome then .succeeded
  else .idle

/-- One user-visible event of the workflow: a completed `handleShare`
invocation (button click) or a completed `handleRetry` invocation, each
carrying the props seen at that moment and the oracle outcome of its
remote call (ignored on the precondition path, where no call is made). -/
inductive ShareEvent where
  | share (taskFileId : Option String) (taskFileName : Option String)
      (outcome : ShareOutcome) (now : Nat)
  | retry (taskFileId : Option String) (taskFileName : Option String)
      (outcome : ShareOutcome) (now : Nat)
deriving Repr, DecidableEq

/-- Apply one event to the component state. -/
def stepEvent (st : ShareState) : ShareEvent → ShareState
  | .share fid fn oc now => (handleShare fid fn oc now st).1
  | .retry fid fn oc now => (handleRetry fid fn oc now st).1

/-- Run a sequence of events from a state. -/
def runEvents (st : ShareState) (evs : List ShareEvent) : ShareState :=
  evs.foldl stepEvent st

/-- A state is reachable when some event sequence leads to it from the
mount state. -/
def Reachable (st : ShareState) : Prop :=
  ∃ evs, runEvents initialState evs = st

/-- Does an invocation with this file id and outcome end with an error
message set?  True on the precondition path and on remote failure. -/
def invocationFails (fid : Option String) (oc : ShareOutcome) : Bool :=
  if truthyFileId fid then
    match oc with
    | .success _ => false
    | .failure _ => true
  else true

/-- Does an invocation with this file id and outcome store a result?
Only a completed remote call that succeeds does. -/
def invocationSucceeds (fid : Option String) (oc : ShareOutcome) : Bool :=
  truthyFileId fid &&
    match oc with
    | .success _ => true
    | .failure _ => false

/-- Whether an event leaves an error message behind. -/
def eventFails : ShareEvent → Bool
  | .share fid _ oc _ => invocationFails fid oc
  | .retry fid _ oc _ => invocationFails fid oc

/-- Whether an event stores a fresh successful result. -/
def eventSucceeds : ShareEvent → Bool
  | .share fid _ oc _ => invocationSucceeds fid oc
  | .retry fid _ oc _ => invocationSucceeds fid oc

/-- A store record for file id "f1", as left by an earlier non-duplicate
success. -/
def recA : LocalShare :=
  { id := "s-old", file_name := "movie.mkv", share_url := "https://x/old",
    pass_code := none, timestamp := 1, file_id := "f1" }

/-- A component state whose store already holds a record for "f1". -/
def stWithF1 : ShareState :=
  { shareLoading := false, shareData := none, shareError := none, shares := [recA] }

/-- A fresh (non-existing) success response for file id "f1". -/
def rNew : ShareResult :=
  { share_url := "https://x/y", pass_code := none, is_existing := false,
    share_id := some "s2" }

end PikpakShare

namespace PikpakShare

/-- C7: the Error Classifier maps every descriptor with no response to the
network-unreachable message, whatever the other fields hold. -/
theorem classifier_no_response (e : AxiosFailure) (h : e.response = none) :
    getUserFriendlyError e = "Unable to connect. Please check your internet connection." := by
  unfold getUserFriendlyError
  rw [h]

/-- Witness for `classifier_no_response` at a concrete transport failure
carrying an unrelated message field. -/
theorem classifier_no_response_witness :
    getUserFriendlyError { response := none, message := some "Network Error" } =
      "Unable to connect. Please check your internet connection." :=
  classifier_no_response { response := none, message := some "Network Error" } rfl

/-- C6: a received response with status 401 or 403 is always classified as
the permission message; the status check precedes every server-message
check, so a `data_error` (even one containing "not found") is ignored. -/
theorem classifier_forbidden (e : AxiosFailure) (resp : AxiosResponse)
    (hr : e.response = some resp) (hs : resp.status = 401 ∨ resp.status = 403) :
    getUserFriendlyError e = "You don't have permission to share this file." := by
  unfold getUserFriendlyError
  rw [hr]
  rcases hs with h | h <;> simp [h]

/-- Witness for `classifier_forbidden`: status 401 together with a server
message containing "not found" still yields the permission message. -/
theorem classifier_forbidden_witness :
    getUserFriendlyError
        { response := some { status := 401, data_error := some "file not found" },
          message := none } =
      "You don't have permission to share this file." :=
  classifier_forbidden
    { response := some { status := 401, data_error := some "file not found" },
      message := none }
    { status := 401, data_error := some "file not found" } rfl (Or.inl rfl)

/-- C8: with a response whose status is neither 401 nor 403 and below 500,
a non-empty server message containing "timeout" in any casing is
classified as the timeout message. -/
theorem classifier_timeout (e : AxiosFailure) (resp : AxiosResponse) (msg : String)
    (hr : e.response = some resp) (hm : resp.data_error = some msg)
    (h401 : resp.status ≠ 401) (h403 : resp.status ≠ 403) (h500 : resp.status < 500)
    (hne : msg ≠ "") (ht : strContains (lowerStr msg) "timeout" = true) :
    getUserFriendlyError e = "Request timed out. Please try again." := by
  have hb1 : (resp.status == 403 || resp.status == 401) = false := by
    simp [h401, h403]
  have hb2 : ¬ resp.status ≥ 500 := by omega
  have hb3 : (msg == "") = false := by simp [hne]
  simp [getUserFriendlyError, hr, hm, hb1, hb2, hb3, ht]

/-- Witness for `classifier_timeout`: HTTP 408 with server message
"Gateway TIMEOUT after 30s". -/
theorem classifier_timeout_witness :
    getUserFriendlyError
        { response := some { status := 408, data_error := some "Gateway TIMEOUT after 30s" },
          message := none } =
      "Request timed out. Please try again." :=
  classifier_timeout
    { response := some { status := 408, data_error := some "Gateway TIMEOUT after 30s" },
      message := none }
    { status := 408, data_error := some "Gateway TIMEOUT after 30s" }
    "Gateway TIMEOUT after 30s" rfl rfl (by decide) (by decide) (by decide)
    (by decide) (by decide)

/-- C5: starting from a store with no record for `fid`, appending a first
and then a second share result for the same `fid` leaves the store of the
first append unchanged (the second append is a no-op), and that store
holds exactly one record for `fid`: the one built from the first
append. -/
theorem append_idempotent (shares : List LocalShare) (r1 r2 : ShareResult)
    (fid : String) (fn1 fn2 : Option String) (now1 now2 : Nat)
    (hfresh : ∀ s ∈ shares, s.file_id ≠ fid) :
    saveToLocalStorage (saveToLocalStorage shares r1 fid fn1 now1) r2 fid fn2 now2 =
        saveToLocalStorage shares r1 fid fn1 now1 ∧
      (saveToLocalStorage shares r1 fid fn1 now1).filter (fun s => s.file_id == fid) =
        [mkLocalShare r1 fid fn1 now1] := by
  have h1 : shares.any (fun s => s.file_id == fid) = false := by
    rw [List.any_eq_false]
    intro s hs
    simp [hfresh s hs]
  have hfil : shares.filter (fun s => s.file_id == fid) = [] := by
    rw [List.filter_eq_nil_iff]
    intro s hs
    simp [hfresh s hs]
  refine ⟨?_, ?_⟩
  · simp [saveToLocalStorage, h1, mkLocalShare]
  · simp [saveToLocalStorage, h1, List.filter_cons, mkLocalShare, hfil]

/-- Witness for `append_idempotent`: from the empty store, two appends for
file id "f1". -/
theorem append_idempotent_witness :
    saveToLocalStorage
        (saveToLocalStorage []
          { share_url := "https://x/y", pass_code := none, is_existing := false,
            share_id := some "s1" } "f1" (some "movie.mkv") 11)
        { share_url := "https://x/z", pass_code := some "p", is_existing := false,
          share_id := some "s2" } "f1" (some "movie.mkv") 22 =
      saveToLocalStorage []
        { share_url := "https://x/y", pass_code := none, is_existing := false,
          share_id := some "s1" } "f1" (some "movie.mkv") 11 ∧
    (saveToLocalStorage []
        { share_url := "https://x/y", pass_code := none, is_existing := false,
          share_id := some "s1" } "f1" (some "movie.mkv") 11).filter
        (fun s => s.file_id == "f1") =
      [mkLocalShare
        { share_url := "https://x/y", pass_code := none, is_existing := false,
          share_id := some "s1" } "f1" (some "movie.mkv") 11] :=
  append_idempotent []
    { share_url := "https://x/y", pass_code := none, is_existing := false,
      share_id := some "s1" }
    { share_url := "https://x/z", pass_code := some "p", is_existing := false,
      share_id := some "s2" }
    "f1" (some "movie.mkv") (some "movie.mkv") 11 22 (by simp)

/-- C3: when the task has no resolvable file id (missing or empty), the
invocation makes zero remote calls and only sets the precondition error
message; loading, data and store are untouched, so a non-loading state
stays non-loading. -/
theorem handleShare_no_file_id (st : ShareState) (taskFileId : Option String)
    (taskFileName : Option String) (outcome : ShareOutcome) (now : Nat)
    (h : truthyFileId taskFileId = false) :
    handleShare taskFileId taskFileName outcome now st =
      ({ st with
          shareError := some "File ID not available. Task may not be completed yet." }, 0) := by
  simp [handleShare, h]

/-- Witness for `handleShare_no_file_id` at a missing file id from the
initial state. -/
theorem handleShare_no_file_id_witness :
    handleShare none none
        (ShareOutcome.failure { response := none, message := none }) 0 initialState =
      ({ initialState with
          shareError := some "File ID not available. Task may not be completed yet." }, 0) :=
  handleShare_no_file_id initialState none none
    (ShareOutcome.failure { response := none, message := none }) 0 rfl

/-- C2: a failed remote call drives the state to `failed`, stores exactly
the classifier's message for that failure, leaves the Local Share Store
untouched, and issues exactly one remote call. -/
theorem handleShare_failure (st : ShareState) (fid : String) (fn : Option String)
    (err : AxiosFailure) (now : Nat) (hfid : fid ≠ "") :
    (handleShare (some fid) fn (.failure err) now st).1.status = .failed ∧
      (handleShare (some fid) fn (.failure err) now st).1.shareError =
        some (getUserFriendlyError err) ∧
      (handleShare (some fid) fn (.failure err) now st).1.shares = st.shares ∧
      (handleShare (some fid) fn (.failure err) now st).2 = 1 := by
  have ht : truthyFileId (some fid) = true := by simp [truthyFileId, hfid]
  simp [handleShare, ht, ShareState.status]

/-- Witness for `handleShare_failure`: a transport failure from the
initial state. -/
theorem handleShare_failure_witness :
    (handleShare (some "f1") none
        (.failure { response := none, message := some "Network Error" }) 3
        initialState).1.status = .failed ∧
      (handleShare (some "f1") none
          (.failure { response := none, message := some "Network Error" }) 3
          initialState).1.shareError =
        some (getUserFriendlyError { response := none, message := some "Network Error" }) ∧
      (handleShare (some "f1") none
          (.failure { response := none, message := some "Network Error" }) 3
          initialState).1.shares = initialState.shares ∧
      (handleShare (some "f1") none
          (.failure { response := none, message := some "Network Error" }) 3
          initialState).2 = 1 :=
  handleShare_failure initialState "f1" none
    { response := none, message := some "Network Error" } 3 (by decide)

/-- C10: a failed invocation after a successful one keeps the previously
stored result untouched — the old share data is still exposed, alongside
the freshly classified error message. -/
theorem failure_preserves_result (st : ShareState) (fid1 fid2 : String)
    (fn1 fn2 : Option String) (r : ShareResult) (err : AxiosFailure) (now1 now2 : Nat)
    (h1 : fid1 ≠ "") (h2 : fid2 ≠ "") :
    (handleShare (some fid2) fn2 (.failure err) now2
        (handleShare (some fid1) fn1 (.success r) now1 st).1).1.shareData = some r ∧
      (handleShare (some fid2) fn2 (.failure err) now2
          (handleShare (some fid1) fn1 (.success r) now1 st).1).1.shareError =
        some (getUserFriendlyError err) := by
  have ht1 : truthyFileId (some fid1) = true := by simp [truthyFileId, h1]
  have ht2 : truthyFileId (some fid2) = true := by simp [truthyFileId, h2]
  simp [handleShare, ht1, ht2]

/-- Witness for `failure_preserves_result`: success for "f1" then an HTTP
500 failure. -/
theorem failure_preserves_result_witness :
    (handleShare (some "f1") none
        (.failure { response := some { status := 500, data_error := some "internal failure" },
                    message := none }) 9
        (handleShare (some "f1") none
          (.success { share_url := "https://x/y", pass_code := none, is_existing := false,
                      share_id := none }) 5 initialState).1).1.shareData =
      some { share_url := "https://x/y", pass_code := none, is_existing := false,
             share_id := none } ∧
      (handleShare (some "f1") none
          (.failure { response := some { status := 500, data_error := some "internal failure" },
                      message := none }) 9
          (handleShare (some "f1") none
            (.success { share_url := "https://x/y", pass_code := none, is_existing := false,
                        share_id := none }) 5 initialState).1).1.shareError =
        some (getUserFriendlyError
          { response := some { status := 500, data_error := some "internal failure" },
            message := none }) :=
  failure_preserves_result initialState "f1" "f1" none none
    { share_url := "https://x/y", pass_code := none, is_existing := false, share_id := none }
    { response := some { status := 500, data_error := some "internal failure" },
      message := none }
    5 9 (by decide) (by decide)

/-- C9: `handleRetry` is extensionally the same operation as
`handleShare` with the same props and state: clearing the error first
changes nothing, because `handleShare` either overwrites the error
(precondition and failure paths) or clears it (success path).  State,
remote-call count and store effects all coincide. -/
theorem retry_equiv_requestShare (taskFileId : Option String)
    (taskFileName : Option String) (outcome : ShareOutcome) (now : Nat)
    (st : ShareState) :
    handleRetry taskFileId taskFileName outcome now st =
      handleShare taskFileId taskFileName outcome now st := by
  cases st
  cases h : truthyFileId taskFileId <;> cases outcome <;>
    simp [handleRetry, handleShare, h]

/-- After any `saveToLocalStorage` call, some record with the given
file id is in the store: either the freshly prepended one or the one
whose presence suppressed the append. -/
theorem save_mem_file_id (shares : List LocalShare) (r : ShareResult)
    (fid : String) (fn : Option String) (now : Nat) :
    ∃ s ∈ saveToLocalStorage shares r fid fn now, s.file_id = fid := by
  by_cases h : shares.any (fun s => s.file_id == fid) = true
  · rw [List.any_eq_true] at h
    obtain ⟨s, hs, hq⟩ := h
    refine ⟨s, ?_, by simpa using hq⟩
    simp only [saveToLocalStorage]
    rw [if_pos (by rw [List.any_eq_true]; exact ⟨s, hs, hq⟩)]
    exact hs
  · refine ⟨mkLocalShare r fid fn now, ?_, rfl⟩
    simp only [saveToLocalStorage]
    rw [if_neg h]
    exact List.mem_cons_self _ _

/-- C1 counterexample: the claim "the store is appended (a new
ShareRecord) exactly when `is_existing` is false" fails, because the
append is the deduplicating `saveToLocalStorage`: from a state whose
store already holds a record for "f1" (e.g. after an earlier success), a
second success with `is_existing = false` appends nothing. -/
theorem success_always_appends_cex :
    ¬ (∀ (st : ShareState) (fid : String) (fn : Option String) (r : ShareResult)
          (now : Nat), fid ≠ "" →
        (handleShare (some fid) fn (.success r) now st).1.status = .succeeded ∧
          (handleShare (some fid) fn (.success r) now st).1.shareData = some r ∧
          (r.is_existing = false →
            (handleShare (some fid) fn (.success r) now st).1.shares =
              mkLocalShare r fid fn now :: st.shares) ∧
          (r.is_existing = true →
            (handleShare (some fid) fn (.success r) now st).1.shares = st.shares)) := by
  intro h
  have h3 := (h stWithF1 "f1" none rNew 7 (by decide)).2.2.1 (by decide)
  revert h3
  decide

/-- C1 (amended): a successful remote call drives the state to
`succeeded`, stores the result, and issues exactly one remote call; when
`is_existing` is true the store is untouched; when `is_existing` is false
the deduplicating append runs: it prepends the new ShareRecord whenever
no record with that file id is already stored (and is a no-op otherwise),
so afterwards the store always holds a record for that file id. -/
theorem handleShare_success (st : ShareState) (fid : String) (fn : Option String)
    (r : ShareResult) (now : Nat) (hfid : fid ≠ "") :
    (handleShare (some fid) fn (.success r) now st).1.status = .succeeded ∧
      (handleShare (some fid) fn (.success r) now st).1.shareData = some r ∧
      (handleShare (some fid) fn (.success r) now st).2 = 1 ∧
      (r.is_existing = true →
        (handleShare (some fid) fn (.success r) now st).1.shares = st.shares) ∧
      (r.is_existing = false → (∀ s ∈ st.shares, s.file_id ≠ fid) →
        (handleShare (some fid) fn (.success r) now st).1.shares =
          mkLocalShare r fid fn now :: st.shares) ∧
      (r.is_existing = false →
        ∃ s ∈ (handleShare (some fid) fn (.success r) now st).1.shares,
          s.file_id = fid) := by
  have ht : truthyFileId (some fid) = true := by simp [truthyFileId, hfid]
  refine ⟨?_, ?_, ?_, ?_, ?_, ?_⟩
  · simp [handleShare, ht, ShareState.status]
  · simp [handleShare, ht]
  · simp [handleShare, ht]
  · intro he
    simp [handleShare, ht, he]
  · intro he hf
    have h1 : st.shares.any (fun s => s.file_id == fid) = false := by
      rw [List.any_eq_false]
      intro s hs
      simp [hf s hs]
    simp [handleShare, ht, he, saveToLocalStorage, h1]
  · intro he
    have hsh : (handleShare (some fid) fn (.success r) now st).1.shares =
        saveToLocalStorage st.shares r fid fn now := by
      simp [handleShare, ht, he]
    rw [hsh]
    exact save_mem_file_id st.shares r fid fn now

/-- Witness for `handleShare_success`: a fresh success for "f1" from the
initial (empty-store) state becomes `succeeded` and prepends the new
record. -/
theorem handleShare_success_witness :
    (handleShare (some "f1") (some "movie.mkv") (.success rNew) 7 initialState).1.status =
        .succeeded ∧
      (handleShare (some "f1") (some "movie.mkv") (.success rNew) 7 initialState).1.shares =
        mkLocalShare rNew "f1" (some "movie.mkv") 7 :: initialState.shares :=
  ⟨(handleShare_success initialState "f1" (some "movie.mkv") rNew 7 (by decide)).1,
   (handleShare_success initialState "f1" (some "movie.mkv") rNew 7
      (by decide)).2.2.2.2.1 (by decide) (by simp [initialState])⟩

/-- After one completed invocation the error message is present exactly
when `invocationFails` says so, whatever the incoming state. -/
theorem handleShare_error_isSome (fid : Option String) (fn : Option String)
    (oc : ShareOutcome) (now : Nat) (st : ShareState) :
    (handleShare fid fn oc now st).1.shareError.isSome = invocationFails fid oc := by
  cases h : truthyFileId fid <;> cases oc <;> simp [handleShare, invocationFails, h]

/-- After one completed invocation, share data is present exactly when it
was already present or the call succeeded. -/
theorem handleShare_data_isSome (fid : Option String) (fn : Option String)
    (oc : ShareOutcome) (now : Nat) (st : ShareState) :
    (handleShare fid fn oc now st).1.shareData.isSome =
      (st.shareData.isSome || invocationSucceeds fid oc) := by
  cases h : truthyFileId fid <;> cases oc <;>
    simp [handleShare, invocationSucceeds, h]

/-- A completed invocation never leaves the loading flag set. -/
theorem handleShare_not_loading (fid : Option String) (fn : Option String)
    (oc : ShareOutcome) (now : Nat) (st : ShareState)
    (h : st.shareLoading = false) :
    (handleShare fid fn oc now st).1.shareLoading = false := by
  cases ht : truthyFileId fid <;> cases oc <;> simp [handleShare, ht, h]

/-- One event: error presence is dictated by the event alone; data
presence is monotone, growing exactly on successful calls; loading stays
clear. -/
theorem stepEvent_facts (st : ShareState) (e : ShareEvent) :
    (stepEvent st e).shareError.isSome = eventFails e ∧
      (stepEvent st e).shareData.isSome = (st.shareData.isSome || eventSucceeds e) ∧
      (st.shareLoading = false → (stepEvent st e).shareLoading = false) := by
  cases e with
  | share fid fn oc now =>
    exact ⟨handleShare_error_isSome fid fn oc now st,
      handleShare_data_isSome fid fn oc now st,
      handleShare_not_loading fid fn oc now st⟩
  | retry fid fn oc now =>
    refine ⟨?_, ?_, ?_⟩
    · exact handleShare_error_isSome fid fn oc now { st with shareError := none }
    · exact handleShare_data_isSome fid fn oc now { st with shareError := none }
    · intro h
      exact handleShare_not_loading fid fn oc now { st with shareError := none } h

/-- Event-sequence characterisation of error presence, data presence and
the loading flag, generalised over the starting state. -/
theorem runEvents_facts (evs : List ShareEvent) :
    ∀ st : ShareState,
      (runEvents st evs).shareError.isSome =
          evs.foldl (fun _ e => eventFails e) st.shareError.isSome ∧
        (runEvents st evs).shareData.isSome =
          evs.foldl (fun b e => b || eventSucceeds e) st.shareData.isSome ∧
        (st.shareLoading = false → (runEvents st evs).shareLoading = false) := by
  induction evs with
  | nil => exact fun st => ⟨rfl, rfl, fun h => h⟩
  | cons e evs ih =>
    intro st
    have hs := stepEvent_facts st e
    have hr := ih (stepEvent st e)
    refine ⟨?_, ?_, ?_⟩
    · rw [List.foldl_cons]
      calc (runEvents (stepEvent st e) evs).shareError.isSome
          = evs.foldl (fun _ e => eventFails e) (stepEvent st e).shareError.isSome := hr.1
        _ = evs.foldl (fun _ e => eventFails e) (eventFails e) := by rw [hs.1]
    · rw [List.foldl_cons]
      calc (runEvents (stepEvent st e) evs).shareData.isSome
          = evs.foldl (fun b e => b || eventSucceeds e)
              (stepEvent st e).shareData.isSome := hr.2.1
        _ = evs.foldl (fun b e => b || eventSucceeds e)
              (st.shareData.isSome || eventSucceeds e) := by rw [hs.2.1]
    · intro h
      exact hr.2.2 (hs.2.2 h)

/-- Folding disjunction over event successes is `List.any`. -/
theorem foldl_or_eventSucceeds (evs : List ShareEvent) :
    ∀ b : Bool, evs.foldl (fun a e => a || eventSucceeds e) b =
      (b || evs.any eventSucceeds) := by
  induction evs with
  | nil => intro b; simp
  | cons e evs ih =>
    intro b
    simp [List.foldl_cons, List.any_cons, ih, Bool.or_assoc]

/-- A success event and a subsequent failure event for file "f1". -/
def evSucc : ShareEvent := .share (some "f1") (some "movie.mkv") (.success rNew) 5

/-- The failure event used in the reachable counterexample state. -/
def evFail : ShareEvent :=
  .share (some "f1") (some "movie.mkv")
    (.failure { response := none, message := none }) 9

/-- C4 counterexample: the claimed invariant "result present iff
`succeeded` and errorMessage present iff `failed`" does not hold of every
reachable state: after a success followed by a failure, the retained
result and the fresh error message are both present, so the state is
`failed` while still carrying a result. -/
theorem state_invariant_cex :
    ¬ (∀ st : ShareState, Reachable st →
        (st.shareData.isSome ↔ st.status = .succeeded) ∧
          (st.shareError.isSome ↔ st.status = .failed)) := by
  intro h
  have hreach : Reachable (runEvents initialState [evSucc, evFail]) :=
    ⟨[evSucc, evFail], rfl⟩
  have hc := h (runEvents initialState [evSucc, evFail]) hreach
  revert hc
  decide

/-- C4 (amended): in every reachable state (any event sequence from the
mount state), the error message is present exactly when the state is
`failed` — equivalently, exactly when the last invocation ended in a
precondition or remote failure — while the stored result is present
exactly when some invocation in the history succeeded: the last
successful result is retained across later failures, so its presence does
not coincide with status `succeeded`. -/
theorem state_invariant_amended (evs : List ShareEvent) :
    ((runEvents initialState evs).shareError.isSome ↔
        (runEvents initialState evs).status = .failed) ∧
      (runEvents initialState evs).shareData.isSome = evs.any eventSucceeds := by
  have h := runEvents_facts evs initialState
  have hload : (runEvents initialState evs).shareLoading = false := h.2.2 rfl
  refine ⟨?_, ?_⟩
  · unfold ShareState.status
    rw [hload]
    by_cases he : (runEvents initialState evs).shareError.isSome = true
    · simp [he]
    · simp only [Bool.not_eq_true] at he
      simp only [he, Bool.false_eq_true, if_false]
      by_cases hd : (runEvents initialState evs).shareData.isSome = true <;> simp [hd]
  · rw [h.2.1]
    have := foldl_or_eventSucceeds evs false
    simpa [initialState] using this

end PikpakShare
